import Mathlib

set_option maxRecDepth 8000

/-!
Verification of the two QuantConnect strategies in this repository:

* `src/MSFT/main.py` — `MSFTBeatBuyHoldV4`, a single-instrument
  volatility-scaled momentum strategy;
* `src/Seasonal/main.py` — `SeasonalETFRotationStrategy`, a multi-instrument
  seasonal momentum rotation strategy.

The Python code is shallowly embedded: prices, indicator values and weights
are modelled as exact rationals (`ℚ`); the one genuinely irrational quantity,
the annualized standard deviation `np.std(returns) * np.sqrt(252)`, is
modelled exactly over `ℝ` (`get_realized_vol`), and the rebalance gating
logic that merely threads that value through is parameterized by an
arbitrary function `std252 : List ℚ → ℚ` standing for it, so the gating
theorems hold for every possible value of the volatility.  Fallible lookups
return `Option`.  Emitted trading instructions are reified as values.
-/

/-! ## Single-instrument variant: `MSFTBeatBuyHoldV4` (src/MSFT/main.py) -/

/-- Configured constant `self.lookback_12m = 252`. -/
def lookback_12m : ℕ := 252

/-- Configured constant `self.target_vol = 0.22`. -/
def target_vol : ℚ := 0.22

/-- Configured constant `self.max_leverage = 2.0` (the rational 2). -/
def max_leverage : ℚ := 2

/-- Configured constant `self.base_leverage = 1.25`. -/
def base_leverage : ℚ := 1.25

/-- Configured constant `self.strong_trend_leverage = 1.6`. -/
def strong_trend_leverage : ℚ := 1.6

/-- Configured constant `self.vol_floor = 0.12`. -/
def vol_floor : ℚ := 0.12

/-- The mutable state owned by `MSFTBeatBuyHoldV4` and updated by `on_data`:
the two rolling windows (newest first) and the last seen price
(`self.last_price`, `None` before the first valid bar). -/
structure MSFTState where
  price_history : List ℚ
  return_history : List ℚ
  last_price : Option ℚ
deriving DecidableEq

/-- Model of `RollingWindow[float](cap).add x`: newest-first prepend, evicting the
oldest entry beyond the fixed capacity. -/
def rwAdd (cap : ℕ) (x : ℚ) (l : List ℚ) : List ℚ :=
  (x :: l).take cap

/-- Model of `on_data` (src/MSFT/main.py lines 60-69).  A price event carries either
no usable MSFT bar (`none`: `data` misses the key or the bar is falsy) or a
close price.  Non-positive prices are dropped.  Otherwise the price is
appended to the price window, a simple return is appended to the return
window when a positive previous price exists, and the last price is
updated. -/
def on_data (bar : Option ℚ) (st : MSFTState) : MSFTState :=
  match bar with
  | none => st
  | some price =>
    if price ≤ 0 then st
    else
      { price_history := rwAdd (lookback_12m + 1) price st.price_history
        return_history :=
          match st.last_price with
          | some lp => if 0 < lp then rwAdd 25 (price / lp - 1) st.return_history
                       else st.return_history
          | none => st.return_history
        last_price := some price }

/-- Model of `get_12m_momentum` (src/MSFT/main.py lines 71-74): `None` until the price
window holds more than `lookback_12m` samples, else
`price_history[0] / price_history[lookback_12m] - 1`. -/
def get_12m_momentum (st : MSFTState) : Option ℚ :=
  if st.price_history.length ≤ lookback_12m then none
  else some (st.price_history.getD 0 0 / st.price_history.getD lookback_12m 0 - 1)

/-- Arithmetic mean of a list of rationals (`np.mean`-style; 0 on `[]`). -/
def listMean (l : List ℚ) : ℚ := l.sum / l.length

/-- Population variance with divisor `n`, the quantity under the square root
in `np.std(returns)` (numpy default `ddof=0`). -/
def popVar (l : List ℚ) : ℚ :=
  (l.map (fun x => (x - listMean l) ^ 2)).sum / l.length

/-- Model of `get_realized_vol` (src/MSFT/main.py lines 76-80), modelled exactly over
`ℝ`: `None` until 20 returns are stored, else
`np.std([return_history[i] for i in range(20)]) * np.sqrt(252)`, where
`np.std` is the square root of the population variance (divisor `n = 20`,
numpy default `ddof=0`). -/
noncomputable def get_realized_vol (st : MSFTState) : Option ℝ :=
  if st.return_history.length < 20 then none
  else some (Real.sqrt ((popVar (st.return_history.take 20) : ℚ) : ℝ) * Real.sqrt 252)

/-- The inputs read by the position-sizing section of `rebalance`
(src/MSFT/main.py lines 92-138) once all gates have passed. -/
structure SizerInput where
  momentum : ℚ
  realized_vol : ℚ
  current_price : ℚ
  sma_200_val : ℚ
  sma_50_val : ℚ
  rsi_val : ℚ
deriving DecidableEq

/-- The target-position computation of `rebalance`
(src/MSFT/main.py lines 103-138): the exit tier
(`momentum <= 0 or not above_sma_200`), the strong-trend tier
(`above_sma_50 and golden_cross`, volatility-scaled leverage clamped to
`[1.0, max_leverage]` with RSI adjustments), and the moderate tier
(volatility-scaled base leverage clamped to `[0.9, 1.5]`). -/
def target_position (s : SizerInput) : ℚ :=
  let above_sma_200 := s.sma_200_val < s.current_price
  let above_sma_50 := s.sma_50_val < s.current_price
  let golden_cross := s.sma_200_val < s.sma_50_val
  if s.momentum ≤ 0 ∨ ¬above_sma_200 then 0
  else if above_sma_50 ∧ golden_cross then
    let vol_scalar := target_vol / max s.realized_vol vol_floor
    let position := strong_trend_leverage * vol_scalar
    let position := max 1 (min max_leverage position)
    if s.rsi_val < 35 then min max_leverage (position * 1.15)
    else if 72 < s.rsi_val then max 1 (position * 0.92)
    else position
  else
    let vol_scalar := target_vol / max s.realized_vol vol_floor
    let position := base_leverage * vol_scalar
    max 0.9 (min 1.5 position)

/-- The portfolio snapshot read at src/MSFT/main.py line 141. -/
structure MSFTPortfolio where
  holdings_value : ℚ
  total_value : ℚ
deriving DecidableEq

/-- Model of `current` at src/MSFT/main.py line 141:
`holdings_value / total_portfolio_value if total_portfolio_value > 0 else 0`. -/
def current_weight (port : MSFTPortfolio) : ℚ :=
  if 0 < port.total_value then port.holdings_value / port.total_value else 0

/-- Readiness flags and current values of the three external indicator
objects consulted by the MSFT `rebalance`. -/
structure MSFTInd where
  sma200_ready : Bool
  sma50_ready : Bool
  rsi_ready : Bool
  sma200 : ℚ
  sma50 : ℚ
  rsi : ℚ
deriving DecidableEq

/-- Model of `rebalance` (src/MSFT/main.py lines 82-145).  The function reads state
and emits at most one set-weight instruction (ticker and target fraction);
it never writes any persisted state.  `std252` abstracts the numeric value
`np.std(last 20 returns) * np.sqrt(252)` (irrational in general; its exact
real value is `get_realized_vol`); every theorem below holds for an
arbitrary `std252`, and the availability gate (`get_realized_vol_q`) uses
the same `count < 20` condition as the source. -/
def get_realized_vol_q (std252 : List ℚ → ℚ) (st : MSFTState) : Option ℚ :=
  if st.return_history.length < 20 then none
  else some (std252 (st.return_history.take 20))

def msft_rebalance (std252 : List ℚ → ℚ) (warming : Bool) (ind : MSFTInd)
    (port : MSFTPortfolio) (st : MSFTState) : Option (String × ℚ) :=
  if warming then none
  else if ¬ind.sma200_ready ∨ ¬ind.sma50_ready then none
  else if ¬ind.rsi_ready then none
  else if st.price_history.length ≤ lookback_12m then none
  else
    match get_12m_momentum st, get_realized_vol_q std252 st with
    | some momentum, some realized_vol =>
      let s : SizerInput :=
        { momentum := momentum
          realized_vol := realized_vol
          current_price := st.price_history.getD 0 0
          sma_200_val := ind.sma200
          sma_50_val := ind.sma50
          rsi_val := ind.rsi }
      let target := target_position s
      let current := current_weight port
      if 0.10 < |current - target| then some ("MSFT", target) else none
    | _, _ => none


/-- Modelled from the specification wording only for comparison with the value computed by the code, namely
`np.std`: the "sample standard deviation" in its usual Bessel-corrected
sense, variance divisor `n - 1`. -/
def sampleVar (l : List ℚ) : ℚ :=
  (l.map (fun x => (x - listMean l) ^ 2)).sum / ((l.length : ℚ) - 1)

/-- The realized-volatility value as worded in the specification: sample standard deviation of the
returns, annualized by `√252`. -/
noncomputable def sample_std_annualized (l : List ℚ) : ℝ :=
  Real.sqrt ((sampleVar l : ℚ) : ℝ) * Real.sqrt 252

/-! ## Multi-instrument variant: `SeasonalETFRotationStrategy`
(src/Seasonal/main.py) -/

/-- Configured constant `self.top_n = 3`. -/
def top_n : ℕ := 3

/-- Configured constant `self.min_etfs = 2`. -/
def min_etfs : ℕ := 2

/-- Configured list `self.aggressive_etfs`. -/
def aggressive_etfs : List String := ["XLV", "XLI", "XLY", "XLB"]

/-- Configured list `self.defensive_etfs`. -/
def defensive_etfs : List String := ["XLK", "XLP", "XLU", "QQQ"]

/-- Configured list `self.safety_etfs`. -/
def safety_etfs : List String := ["TLT", "SHY"]

/-- Configured benchmark `self.market_etf = "SPY"`. -/
def market_etf : String := "SPY"

/-- Per-ticker view at decision time: the readiness flags and current values
of the `SymbolData` indicators, the security price read through
`self.securities[symbol].price`, and the `invested` flag of
`self.portfolio[symbol]`. -/
structure EtfData where
  mom_ready : Bool
  sma_ready : Bool
  roc_ready : Bool
  sma_val : ℚ
  roc_val : ℚ
  price : ℚ
  invested : Bool
deriving DecidableEq

/-- The read-only environment of one scheduled Seasonal rebalance: the data
view per ticker, the calendar month of `self.time`, and the warmup flag. -/
structure SeasonalEnv where
  data : String → EtfData
  month : ℕ
  warming : Bool

/-- Model of `is_winter_season` (src/Seasonal/main.py lines 97-103):
`month >= 11 or month <= 4`. -/
def is_winter_season (env : SeasonalEnv) : Bool :=
  decide (11 ≤ env.month) || decide (env.month ≤ 4)

/-- Model of `is_market_bullish` (src/Seasonal/main.py lines 105-114): `True` when the
SPY 200-day SMA is not ready, else SPY price `>` SMA value. -/
def is_market_bullish (env : SeasonalEnv) : Bool :=
  let spy := env.data market_etf
  if ¬spy.sma_ready then true
  else decide (spy.sma_val < spy.price)

/-- The filtering/scoring loop of `get_etf_scores`
(src/Seasonal/main.py lines 121-138), before the sort: tickers whose
momentum and SMA indicators are ready and whose price is strictly above the
SMA, paired with the ROCP value (or 0 when the ROCP indicator is not
ready), in enumeration order. -/
def scored_candidates (env : SeasonalEnv) (etf_list : List String) : List (String × ℚ) :=
  etf_list.filterMap fun ticker =>
    let d := env.data ticker
    if ¬d.mom_ready ∨ ¬d.sma_ready then none
    else if d.price ≤ d.sma_val then none
    else some (ticker, if d.roc_ready then d.roc_val else 0)

/-- Model of `get_etf_scores` (src/Seasonal/main.py lines 116-142).  The Python line
`scores.sort(key=lambda x: x[1], reverse=True)` is a stable sort by score
descending (the CPython Timsort never reorders elements whose keys compare
equal, and `reverse=True` does not disturb this); the executable model is
insertion sort with the relation `b.2 ≤ a.2`, which places an earlier
element before any later element whose score is not strictly greater —
exactly the stable descending order.  The stability is proved below as a
filter-preservation theorem rather than assumed. -/
def get_etf_scores (env : SeasonalEnv) (etf_list : List String) : List (String × ℚ) :=
  (scored_candidates env etf_list).insertionSort (fun a b => b.2 ≤ a.2)

/-- An instruction emitted by a rebalance: `self.set_holdings(symbol, w)`
or `self.liquidate(symbol)`. -/
inductive Instr where
  | setWeight (ticker : String) (weight : ℚ)
  | liquidate (ticker : String)
deriving DecidableEq

/-- The seasonal candidate group chosen at src/Seasonal/main.py line 153. -/
def primary_etfs (env : SeasonalEnv) : List String :=
  if is_winter_season env then aggressive_etfs else defensive_etfs

/-- Model of `target_holdings` as computed by `rebalance`
(src/Seasonal/main.py lines 169-180): the first `top_n` scored tickers when
the market is bullish and at least `min_etfs` candidates scored, else the
safety set in its entirety. -/
def seasonal_target (env : SeasonalEnv) : List String :=
  let etf_scores := get_etf_scores env (primary_etfs env)
  if is_market_bullish env = true ∧ min_etfs ≤ etf_scores.length then
    (etf_scores.take top_n).map Prod.fst
  else safety_etfs

/-- Model of `weight = 1.0 / len(target_holdings) if target_holdings else 0`
(src/Seasonal/main.py line 183). -/
def seasonal_weight (target : List String) : ℚ :=
  if target = [] then 0 else 1 / (target.length : ℚ)

/-- Model of `rebalance` (src/Seasonal/main.py lines 144-203).  Inputs: the read-only
environment and the persisted `self.current_holdings`; outputs: the emitted
instruction list (liquidations first, then set-weight calls, in source
order) and the updated `self.current_holdings`.  During warmup the call
returns immediately: no instructions, state unchanged. -/
def seasonal_rebalance (env : SeasonalEnv) (current_holdings : List String) :
    List Instr × List String :=
  if env.warming then ([], current_holdings)
  else
    let target := seasonal_target env
    let weight := seasonal_weight target
    let liqs := (current_holdings.filter fun t =>
      decide (t ∉ target) && (env.data t).invested).map Instr.liquidate
    let sets := target.map fun t => Instr.setWeight t weight
    (liqs ++ sets, target)

/-- The `(ticker, weight)` pairs of the set-weight instructions in a list. -/
def set_weight_instrs (ins : List Instr) : List (String × ℚ) :=
  ins.filterMap fun i =>
    match i with
    | Instr.setWeight t w => some (t, w)
    | Instr.liquidate _ => none

/-- The tickers receiving a liquidate instruction in a list. -/
def liquidation_tickers (ins : List Instr) : List String :=
  ins.filterMap fun i =>
    match i with
    | Instr.setWeight _ _ => none
    | Instr.liquidate t => some t

/-! ## Concrete inputs used by witnesses and counterexamples -/

/-- A ticker view with every indicator not ready. -/
def etf_not_ready : EtfData := ⟨false, false, false, 0, 0, 0, false⟩

/-- An environment past warmup in which every consulted indicator is not
ready (January, winter season). -/
def env_not_ready : SeasonalEnv := ⟨fun _ => etf_not_ready, 1, false⟩

/-- An environment past warmup (December, winter season) in which every
indicator is ready, all four aggressive candidates pass the trend filter
(price 100 above SMA 90), with ROCP scores XLV 8, XLI 2, XLY 5, XLB 2
(a tie between XLI and XLB) and a bullish SPY; XLB is currently invested. -/
def env_ready : SeasonalEnv :=
  ⟨fun t =>
    if t = "XLV" then ⟨true, true, true, 90, 8, 100, false⟩
    else if t = "XLI" then ⟨true, true, true, 90, 2, 100, false⟩
    else if t = "XLY" then ⟨true, true, true, 90, 5, 100, false⟩
    else if t = "XLB" then ⟨true, true, true, 90, 2, 100, true⟩
    else ⟨true, true, true, 90, 0, 100, false⟩,
   12, false⟩

/-- An MSFT state whose windows are full: 253 prices of 100 and 20 returns
of 0. -/
def st_full : MSFTState :=
  ⟨List.replicate 253 100, List.replicate 20 0, some 100⟩

/-- An MSFT state with 20 stored returns, nineteen of them 0 and one 1:
`np.std` (divisor 20) and the sample standard deviation (divisor 19)
disagree here. -/
def st_cex : MSFTState := ⟨[], 1 :: List.replicate 19 0, none⟩

/-- An empty MSFT state. -/
def st_empty : MSFTState := ⟨[], [], none⟩

/-! ## Claims C1 and C2: position sizer bounds and strong-trend formula -/

/-- Claim C1: for every input on which the sizer runs, the target position is
in `[0, max_leverage]`; it is `0` in the exit tier (`momentum ≤ 0` or price
not above the 200-day SMA), in `[1.0, 2.0]` in the strong-trend tier even
after the RSI adjustment, and in `[0.9, 1.5]` in the moderate tier. -/
theorem msft_sizer_bounds (s : SizerInput) :
    (0 ≤ target_position s ∧ target_position s ≤ max_leverage)
    ∧ ((s.momentum ≤ 0 ∨ ¬s.sma_200_val < s.current_price) → target_position s = 0)
    ∧ ((0 < s.momentum ∧ s.sma_200_val < s.current_price ∧
          s.sma_50_val < s.current_price ∧ s.sma_200_val < s.sma_50_val) →
        1 ≤ target_position s ∧ target_position s ≤ max_leverage)
    ∧ ((0 < s.momentum ∧ s.sma_200_val < s.current_price ∧
          ¬(s.sma_50_val < s.current_price ∧ s.sma_200_val < s.sma_50_val)) →
        0.9 ≤ target_position s ∧ target_position s ≤ 1.5) := by
  simp only [target_position]
  set p := max 1 (min max_leverage (strong_trend_leverage * (target_vol / max s.realized_vol vol_floor))) with hp
  set m := max 0.9 (min 1.5 (base_leverage * (target_vol / max s.realized_vol vol_floor))) with hm
  have hlo : (1 : ℚ) ≤ p := le_max_left _ _
  have hhi : p ≤ max_leverage := max_le (by norm_num [max_leverage]) (min_le_left _ _)
  have hml : (2 : ℚ) = max_leverage := by norm_num [max_leverage]
  have hmlo : (0.9 : ℚ) ≤ m := le_max_left _ _
  have hmhi : m ≤ 1.5 := max_le (by norm_num) (min_le_left _ _)
  split_ifs with h1 h2 h3 h4
  · -- exit tier
    refine ⟨⟨le_refl 0, by norm_num [max_leverage]⟩, fun _ => rfl, fun hh => ?_, fun hh => ?_⟩
    · rcases h1 with h | h
      · exact absurd hh.1 (not_lt.mpr h)
      · exact absurd hh.2.1 h
    · rcases h1 with h | h
      · exact absurd hh.1 (not_lt.mpr h)
      · exact absurd hh.2.1 h
  · -- strong tier, RSI < 35
    have lo : (1 : ℚ) ≤ min max_leverage (p * 1.15) :=
      le_min (by norm_num [max_leverage]) (by nlinarith)
    have hi : min max_leverage (p * 1.15) ≤ max_leverage := min_le_left _ _
    exact ⟨⟨by linarith, hi⟩, fun hh => absurd hh h1, fun _ => ⟨lo, hi⟩,
      fun hh => absurd h2 hh.2.2⟩
  · -- strong tier, RSI > 72
    have lo : (1 : ℚ) ≤ max 1 (p * 0.92) := le_max_left _ _
    have hi : max 1 (p * 0.92) ≤ max_leverage :=
      max_le (by norm_num [max_leverage]) (by nlinarith)
    exact ⟨⟨by linarith, hi⟩, fun hh => absurd hh h1, fun _ => ⟨lo, hi⟩,
      fun hh => absurd h2 hh.2.2⟩
  · -- strong tier, no RSI adjustment
    exact ⟨⟨by linarith, hhi⟩, fun hh => absurd hh h1, fun _ => ⟨hlo, hhi⟩,
      fun hh => absurd h2 hh.2.2⟩
  · -- moderate tier
    exact ⟨⟨by linarith, by rw [← hml]; linarith⟩, fun hh => absurd hh h1,
      fun hh => absurd ⟨hh.2.2.1, hh.2.2.2⟩ h2, fun _ => ⟨hmlo, hmhi⟩⟩

/-- Witness for C1: concrete inputs hitting the exit tier, the strong tier
and the moderate tier. -/
theorem msft_sizer_bounds_witness :
    target_position ⟨-1, 1, 100, 90, 95, 50⟩ = 0
    ∧ (1 ≤ target_position ⟨1, 1, 100, 90, 95, 50⟩
        ∧ target_position ⟨1, 1, 100, 90, 95, 50⟩ ≤ max_leverage)
    ∧ (0.9 ≤ target_position ⟨1, 1, 100, 90, 105, 50⟩
        ∧ target_position ⟨1, 1, 100, 90, 105, 50⟩ ≤ 1.5) :=
  ⟨(msft_sizer_bounds ⟨-1, 1, 100, 90, 95, 50⟩).2.1 (Or.inl (by decide)),
   (msft_sizer_bounds ⟨1, 1, 100, 90, 95, 50⟩).2.2.1 (by decide),
   (msft_sizer_bounds ⟨1, 1, 100, 90, 105, 50⟩).2.2.2 (by decide)⟩

/-- Claim C2: in the strong-trend tier the target equals the clamped
volatility-scaled leverage followed by the RSI adjustment, and on the
concrete scenario (realized vol `0.10` — clamped to the floor `0.12` —,
oscillator `50`) it is exactly `max_leverage = 2.0`. -/
theorem msft_sizer_strong_formula (s : SizerInput)
    (hm : 0 < s.momentum) (h200 : s.sma_200_val < s.current_price)
    (h50 : s.sma_50_val < s.current_price) (hg : s.sma_200_val < s.sma_50_val) :
    (target_position s =
      (if s.rsi_val < 35 then
        min max_leverage
          (max 1 (min max_leverage (strong_trend_leverage * (target_vol / max s.realized_vol vol_floor))) * 1.15)
      else if 72 < s.rsi_val then
        max 1
          (max 1 (min max_leverage (strong_trend_leverage * (target_vol / max s.realized_vol vol_floor))) * 0.92)
      else max 1 (min max_leverage (strong_trend_leverage * (target_vol / max s.realized_vol vol_floor)))))
    ∧ (s.realized_vol = 0.10 → s.rsi_val = 50 → target_position s = 2) := by
  have hgate : ¬(s.momentum ≤ 0 ∨ ¬s.sma_200_val < s.current_price) := by
    rintro (h | h)
    · exact absurd hm (not_lt.mpr h)
    · exact h h200
  constructor
  · simp only [target_position]
    rw [if_neg hgate, if_pos ⟨h50, hg⟩]
  · intro hrv hrsi
    simp only [target_position]
    rw [if_neg hgate, if_pos ⟨h50, hg⟩, hrv, hrsi]
    have hmax : max (0.10 : ℚ) vol_floor = 0.12 := max_eq_right (by norm_num [vol_floor])
    rw [hmax]
    norm_num [target_vol, strong_trend_leverage, max_leverage, min_def, max_def]

/-- Witness for C2: the Scenario A input
(momentum 1, realized vol 0.10, price 100 above both SMAs 90 and 95,
golden cross, RSI 50) yields target exactly 2. -/
theorem msft_sizer_strong_formula_witness :
    target_position ⟨1, 0.10, 100, 90, 95, 50⟩ = 2 :=
  (msft_sizer_strong_formula ⟨1, 0.10, 100, 90, 95, 50⟩
    (by decide) (by decide) (by decide) (by decide)).2 rfl rfl

/-! ## Claim C7: invalid bars are dropped without state change -/

/-- Claim C7: a price event with a missing bar or a non-positive close price
leaves the price window, the return window and the stored last price
exactly unchanged. -/
theorem on_data_invalid_bar_noop (st : MSFTState) :
    on_data none st = st ∧ ∀ p : ℚ, p ≤ 0 → on_data (some p) st = st := by
  refine ⟨rfl, fun p hp => ?_⟩
  simp [on_data, if_pos hp]

/-- Witness for C7 at a concrete state and price. -/
theorem on_data_invalid_bar_noop_witness :
    on_data none ⟨[3], [], some 3⟩ = ⟨[3], [], some 3⟩
    ∧ on_data (some (-5)) ⟨[3], [], some 3⟩ = ⟨[3], [], some 3⟩ :=
  ⟨(on_data_invalid_bar_noop ⟨[3], [], some 3⟩).1,
   (on_data_invalid_bar_noop ⟨[3], [], some 3⟩).2 (-5) (by decide)⟩

/-! ## Claim C3: warmup / readiness gating

The single-instrument `rebalance` checks warmup and every consulted
indicator before acting, and never writes state.  The multi-instrument
`rebalance` checks only `self.is_warming_up` (src/Seasonal/main.py lines
147-148); once warmup is over, not-ready indicators merely drop candidates
from the scored list (and default the market flag to bullish), after which
the safety branch still emits set-weight instructions and overwrites
`self.current_holdings` — so a post-warmup invocation with all indicators
not ready is not a no-op, refuting the claim as stated. -/

/-- Counterexample to C3 as stated: in `env_not_ready` warmup is complete
(`warming = false`) and every consulted indicator of every ticker has
`is_ready = false`, yet the rebalance emits a non-empty instruction list
(the safety set is bought) and replaces the stored selection `[]` with the
safety set. -/
theorem seasonal_not_ready_emits :
    (seasonal_rebalance env_not_ready []).1 ≠ []
    ∧ (seasonal_rebalance env_not_ready []).2 ≠ [] := by
  constructor
  · simp [seasonal_rebalance, env_not_ready, seasonal_target, get_etf_scores,
      scored_candidates, is_market_bullish, etf_not_ready, primary_etfs,
      is_winter_season, aggressive_etfs, safety_etfs, min_etfs, market_etf]
  · simp [seasonal_rebalance, env_not_ready, seasonal_target, get_etf_scores,
      scored_candidates, is_market_bullish, etf_not_ready, primary_etfs,
      is_winter_season, aggressive_etfs, safety_etfs, min_etfs, market_etf]

/-- Amended C3: the single-instrument rebalance is a no-op (no instruction
emitted; it writes no state at all) during warmup, when any of the SMA-200,
SMA-50 or RSI indicators is not ready, when the price window is not past
the momentum lookback, and when fewer than 20 returns are stored; the
multi-instrument rebalance is a no-op during warmup only. -/
theorem rebalance_gating_noop :
    (∀ std252 ind port st, msft_rebalance std252 true ind port st = none)
    ∧ (∀ std252 ind port st, (¬ind.sma200_ready ∨ ¬ind.sma50_ready ∨ ¬ind.rsi_ready) →
        msft_rebalance std252 false ind port st = none)
    ∧ (∀ std252 ind port st, st.price_history.length ≤ lookback_12m →
        msft_rebalance std252 false ind port st = none)
    ∧ (∀ std252 ind port st, st.return_history.length < 20 →
        msft_rebalance std252 false ind port st = none)
    ∧ (∀ env st, env.warming = true → seasonal_rebalance env st = ([], st)) := by
  refine ⟨fun std252 ind port st => rfl, fun std252 ind port st h => ?_,
    fun std252 ind port st h => ?_, fun std252 ind port st h => ?_,
    fun env st h => by simp [seasonal_rebalance, h]⟩
  · rcases h with h | h | h
    · simp [msft_rebalance, h]
    · simp [msft_rebalance, h]
    · rcases h50 : ind.sma50_ready <;> rcases h200 : ind.sma200_ready <;>
        simp [msft_rebalance, h, h50, h200]
  · rcases h50 : ind.sma50_ready <;> rcases h200 : ind.sma200_ready <;>
      rcases hrsi : ind.rsi_ready <;>
      simp [msft_rebalance, h, h50, h200, hrsi]
  · have hv : get_realized_vol_q std252 st = none := by
      simp [get_realized_vol_q, h]
    rcases h50 : ind.sma50_ready <;> rcases h200 : ind.sma200_ready <;>
      rcases hrsi : ind.rsi_ready <;>
      rcases hmom : get_12m_momentum st <;>
      simp [msft_rebalance, hv, hmom, h50, h200, hrsi]

/-- Witness for the amended C3: each gate exercised at a concrete input. -/
theorem rebalance_gating_noop_witness :
    msft_rebalance (fun _ => 1) true ⟨true, true, true, 0, 0, 0⟩ ⟨0, 100⟩ st_empty = none
    ∧ msft_rebalance (fun _ => 1) false ⟨false, true, true, 0, 0, 0⟩ ⟨0, 100⟩ st_full = none
    ∧ msft_rebalance (fun _ => 1) false ⟨true, true, true, 0, 0, 0⟩ ⟨0, 100⟩ st_empty = none
    ∧ msft_rebalance (fun _ => 1) false ⟨true, true, true, 0, 0, 0⟩ ⟨0, 100⟩
        ⟨List.replicate 253 100, [], some 100⟩ = none
    ∧ seasonal_rebalance ⟨fun _ => etf_not_ready, 1, true⟩ ["TLT"] = ([], ["TLT"]) :=
  ⟨rebalance_gating_noop.1 _ _ _ _,
   rebalance_gating_noop.2.1 _ _ _ _ (Or.inl (by decide)),
   rebalance_gating_noop.2.2.1 _ _ _ _ (by decide),
   rebalance_gating_noop.2.2.2.1 _ _ _ _ (by simp),
   rebalance_gating_noop.2.2.2.2 _ _ rfl⟩

/-! ## Claim C8: current weight and hysteresis emission -/

/-- Claim C8: on every rebalance that passes the readiness gates, the
current weight is `holdings_value / total_value` when the total is positive
and 0 otherwise, and a set-weight instruction for the target is emitted
exactly when `|current - target| > 0.10`. -/
theorem msft_rebalance_hysteresis (std252 : List ℚ → ℚ) (ind : MSFTInd)
    (port : MSFTPortfolio) (st : MSFTState) (m rv : ℚ)
    (h200 : ind.sma200_ready = true) (h50 : ind.sma50_ready = true)
    (hrsi : ind.rsi_ready = true)
    (hm : get_12m_momentum st = some m)
    (hv : get_realized_vol_q std252 st = some rv) :
    current_weight port =
      (if 0 < port.total_value then port.holdings_value / port.total_value else 0)
    ∧ msft_rebalance std252 false ind port st =
        (if 0.10 < |current_weight port - target_position
              ⟨m, rv, st.price_history.getD 0 0, ind.sma200, ind.sma50, ind.rsi⟩| then
          some ("MSFT", target_position
              ⟨m, rv, st.price_history.getD 0 0, ind.sma200, ind.sma50, ind.rsi⟩)
        else none) := by
  have hlen : ¬st.price_history.length ≤ lookback_12m := by
    intro hcontra
    rw [get_12m_momentum, if_pos hcontra] at hm
    exact Option.noConfusion hm
  refine ⟨rfl, ?_⟩
  simp [msft_rebalance, h200, h50, hrsi, hlen, hm, hv]

/-- Witness for C8: a full state whose momentum is 0 (all prices equal), so
the target is 0 and with current weight 0 no instruction is emitted. -/
theorem msft_rebalance_hysteresis_witness :
    msft_rebalance (fun _ => 1) false ⟨true, true, true, 90, 95, 50⟩ ⟨0, 100⟩ st_full =
      (if 0.10 < |current_weight ⟨0, 100⟩ - target_position
            ⟨0, 1, st_full.price_history.getD 0 0, 90, 95, 50⟩| then
        some ("MSFT", target_position ⟨0, 1, st_full.price_history.getD 0 0, 90, 95, 50⟩)
      else none) :=
  (msft_rebalance_hysteresis (fun _ => 1) ⟨true, true, true, 90, 95, 50⟩ ⟨0, 100⟩ st_full 0 1
    rfl rfl rfl
    (by norm_num [get_12m_momentum, st_full, lookback_12m, List.getD_eq_getElem?_getD,
      List.getElem?_replicate])
    (by simp [get_realized_vol_q, st_full])).2

/-! ## Instruction-list helper lemmas (shared) -/

lemma set_weight_instrs_append (a b : List Instr) :
    set_weight_instrs (a ++ b) = set_weight_instrs a ++ set_weight_instrs b := by
  simp [set_weight_instrs]

lemma liquidation_tickers_append (a b : List Instr) :
    liquidation_tickers (a ++ b) = liquidation_tickers a ++ liquidation_tickers b := by
  simp [liquidation_tickers]

lemma set_weight_instrs_of_liquidates (l : List String) :
    set_weight_instrs (l.map Instr.liquidate) = [] := by
  induction l with
  | nil => rfl
  | cons x xs ih => simp [set_weight_instrs, ih]

lemma liquidation_tickers_of_liquidates (l : List String) :
    liquidation_tickers (l.map Instr.liquidate) = l := by
  induction l with
  | nil => rfl
  | cons x xs ih => simpa [liquidation_tickers] using ih

lemma set_weight_instrs_of_sets (l : List String) (w : ℚ) :
    set_weight_instrs (l.map fun t => Instr.setWeight t w) = l.map fun t => (t, w) := by
  induction l with
  | nil => rfl
  | cons x xs ih => simpa [set_weight_instrs] using ih

lemma liquidation_tickers_of_sets (l : List String) (w : ℚ) :
    liquidation_tickers (l.map fun t => Instr.setWeight t w) = [] := by
  induction l with
  | nil => rfl
  | cons x xs ih => simp [liquidation_tickers, ih]

lemma filter_not_mem_self (l : List String) (f : String → Bool) :
    (l.filter fun t => decide (t ∉ l) && f t) = [] := by
  rw [List.filter_eq_nil_iff]
  intro t ht
  simp [ht]

/-! ## Claim C9: executor idempotence -/

/-- Claim C9: re-running the Seasonal rebalance on the selection stored by a
first run, with unchanged inputs, emits the same set-weight instructions,
no liquidations, and leaves the stored selection unchanged; the MSFT
rebalance emits nothing whenever the current weight is within the 0.10
hysteresis band of the target. -/
theorem executor_idempotent :
    (∀ (env : SeasonalEnv) (st : List String),
      set_weight_instrs (seasonal_rebalance env (seasonal_rebalance env st).2).1 =
          set_weight_instrs (seasonal_rebalance env st).1
        ∧ liquidation_tickers (seasonal_rebalance env (seasonal_rebalance env st).2).1 = []
        ∧ (seasonal_rebalance env (seasonal_rebalance env st).2).2 =
            (seasonal_rebalance env st).2)
    ∧ (∀ (std252 : List ℚ → ℚ) (ind : MSFTInd) (port : MSFTPortfolio) (st : MSFTState)
        (m rv : ℚ),
        get_12m_momentum st = some m → get_realized_vol_q std252 st = some rv →
        |current_weight port - target_position
            ⟨m, rv, st.price_history.getD 0 0, ind.sma200, ind.sma50, ind.rsi⟩| ≤ 0.10 →
        msft_rebalance std252 false ind port st = none) := by
  constructor
  · intro env st
    by_cases hw : env.warming
    · simp [seasonal_rebalance, hw, liquidation_tickers]
    · have hw' : env.warming = false := by simpa using hw
      have hr : ∀ cur, seasonal_rebalance env cur =
          ((cur.filter fun t =>
              decide (t ∉ seasonal_target env) && (env.data t).invested).map Instr.liquidate
            ++ (seasonal_target env).map
                (fun t => Instr.setWeight t (seasonal_weight (seasonal_target env))),
           seasonal_target env) := by
        intro cur
        simp only [seasonal_rebalance, hw', Bool.false_eq_true, if_false]
      rw [hr st]
      dsimp only
      rw [hr (seasonal_target env)]
      dsimp only
      refine ⟨?_, ?_, rfl⟩
      · rw [set_weight_instrs_append, set_weight_instrs_append,
          set_weight_instrs_of_liquidates, set_weight_instrs_of_liquidates]
      · rw [liquidation_tickers_append, liquidation_tickers_of_liquidates,
          liquidation_tickers_of_sets, filter_not_mem_self, List.append_nil]
  · intro std252 ind port st m rv hm hv hband
    have hlen : ¬st.price_history.length ≤ lookback_12m := by
      intro hcontra
      rw [get_12m_momentum, if_pos hcontra] at hm
      exact Option.noConfusion hm
    have hband' := hband
    simp only [List.getD_eq_getElem?_getD] at hband'
    rcases h200 : ind.sma200_ready <;> rcases h50 : ind.sma50_ready <;>
      rcases hrsi : ind.rsi_ready <;>
      simp [msft_rebalance, h200, h50, hrsi, hlen, hm, hv, not_lt.mpr hband,
        not_lt.mpr hband']

/-- Witness for C9: the Seasonal part at the all-ready December environment
re-run on its own output, and the MSFT part at a full flat-price state
(momentum 0, target 0, current weight 0 within the band). -/
theorem executor_idempotent_witness :
    (set_weight_instrs (seasonal_rebalance env_ready
          (seasonal_rebalance env_ready ["XLB", "TLT"]).2).1 =
        set_weight_instrs (seasonal_rebalance env_ready ["XLB", "TLT"]).1
      ∧ liquidation_tickers (seasonal_rebalance env_ready
          (seasonal_rebalance env_ready ["XLB", "TLT"]).2).1 = []
      ∧ (seasonal_rebalance env_ready (seasonal_rebalance env_ready ["XLB", "TLT"]).2).2 =
          (seasonal_rebalance env_ready ["XLB", "TLT"]).2)
    ∧ msft_rebalance (fun _ => 1) false ⟨true, true, true, 90, 95, 50⟩ ⟨0, 100⟩ st_full = none :=
  ⟨executor_idempotent.1 env_ready ["XLB", "TLT"],
   executor_idempotent.2 (fun _ => 1) ⟨true, true, true, 90, 95, 50⟩ ⟨0, 100⟩ st_full 0 1
     (by norm_num [get_12m_momentum, st_full, lookback_12m, List.getD_eq_getElem?_getD,
        List.getElem?_replicate])
     (by simp [get_realized_vol_q, st_full])
     (by norm_num [current_weight, target_position])⟩

/-! ## Claim C10: liquidations and set-weight instructions are disjoint -/

/-- Claim C10: past warmup, a liquidate instruction is emitted exactly for
the tickers of the stored previous selection that are absent from the new
target selection and currently invested; set-weight instructions are
emitted exactly for the new target selection; the two ticker sets are
disjoint. -/
theorem rebalance_disjoint_instrs (env : SeasonalEnv) (st : List String)
    (hw : env.warming = false) :
    liquidation_tickers (seasonal_rebalance env st).1 =
        st.filter (fun t => decide (t ∉ seasonal_target env) && (env.data t).invested)
    ∧ set_weight_instrs (seasonal_rebalance env st).1 =
        (seasonal_target env).map (fun t => (t, seasonal_weight (seasonal_target env)))
    ∧ ∀ t, t ∈ liquidation_tickers (seasonal_rebalance env st).1 →
        ¬t ∈ ((set_weight_instrs (seasonal_rebalance env st).1).map Prod.fst) := by
  have h1 : liquidation_tickers (seasonal_rebalance env st).1 =
      st.filter (fun t => decide (t ∉ seasonal_target env) && (env.data t).invested) := by
    simp only [seasonal_rebalance, hw, Bool.false_eq_true, if_false]
    rw [liquidation_tickers_append, liquidation_tickers_of_liquidates,
      liquidation_tickers_of_sets, List.append_nil]
  have h2 : set_weight_instrs (seasonal_rebalance env st).1 =
      (seasonal_target env).map (fun t => (t, seasonal_weight (seasonal_target env))) := by
    simp only [seasonal_rebalance, hw, Bool.false_eq_true, if_false]
    rw [set_weight_instrs_append, set_weight_instrs_of_liquidates,
      set_weight_instrs_of_sets, List.nil_append]
  refine ⟨h1, h2, fun t ht hmem => ?_⟩
  rw [h1] at ht
  rw [h2, List.map_map] at hmem
  have hnot : t ∉ seasonal_target env := by
    have := (List.mem_filter.mp ht).2
    have := (Bool.and_eq_true _ _).mp this
    exact of_decide_eq_true this.1
  apply hnot
  rcases List.mem_map.mp hmem with ⟨u, hu, hut⟩
  simpa [← hut] using hu

/-- Witness for C10 at the all-ready December environment with previous
selection `["XLB", "TLT"]` (XLB invested and dropped, TLT not invested). -/
theorem rebalance_disjoint_instrs_witness :
    liquidation_tickers (seasonal_rebalance env_ready ["XLB", "TLT"]).1 =
        ["XLB", "TLT"].filter
          (fun t => decide (t ∉ seasonal_target env_ready) && (env_ready.data t).invested)
    ∧ set_weight_instrs (seasonal_rebalance env_ready ["XLB", "TLT"]).1 =
        (seasonal_target env_ready).map
          (fun t => (t, seasonal_weight (seasonal_target env_ready)))
    ∧ ∀ t, t ∈ liquidation_tickers (seasonal_rebalance env_ready ["XLB", "TLT"]).1 →
        ¬t ∈ ((set_weight_instrs (seasonal_rebalance env_ready ["XLB", "TLT"]).1).map Prod.fst) :=
  rebalance_disjoint_instrs env_ready ["XLB", "TLT"] rfl

/-! ## Claim C4: safety fallback and market-regime flag -/

/-- Claim C4: past warmup, whenever the market is not bullish or fewer than
`min_etfs` candidates pass the readiness and trend filters, the selection is
the safety set in its entirety; the market-bullish flag is
`price > long SMA` when the SPY SMA is ready and `true` when it is not. -/
theorem seasonal_safety_and_regime (env : SeasonalEnv) (st : List String)
    (hw : env.warming = false) :
    ((is_market_bullish env = false ∨
        (get_etf_scores env (primary_etfs env)).length < min_etfs) →
      seasonal_target env = safety_etfs ∧ (seasonal_rebalance env st).2 = safety_etfs)
    ∧ ((env.data market_etf).sma_ready = true →
        (is_market_bullish env = true ↔
          (env.data market_etf).sma_val < (env.data market_etf).price))
    ∧ ((env.data market_etf).sma_ready = false → is_market_bullish env = true) := by
  refine ⟨fun h => ?_, fun hr => ?_, fun hr => ?_⟩
  · have ht : seasonal_target env = safety_etfs := by
      simp only [seasonal_target]
      rw [if_neg]
      rintro ⟨hb, hn⟩
      rcases h with h | h
      · rw [hb] at h
        exact Bool.noConfusion h
      · exact absurd hn (not_le.mpr h)
    refine ⟨ht, ?_⟩
    simp only [seasonal_rebalance, hw, Bool.false_eq_true, if_false]
    exact ht
  · simp [is_market_bullish, hr]
  · simp [is_market_bullish, hr]

/-- Witness for C4: the not-ready environment falls back to the safety set
and defaults to bullish; the flag of the ready environment agrees with the SPY
price/SMA comparison. -/
theorem seasonal_safety_and_regime_witness :
    (seasonal_target env_not_ready = safety_etfs
      ∧ (seasonal_rebalance env_not_ready []).2 = safety_etfs)
    ∧ (is_market_bullish env_ready = true ↔
        (env_ready.data market_etf).sma_val < (env_ready.data market_etf).price)
    ∧ is_market_bullish env_not_ready = true :=
  ⟨(seasonal_safety_and_regime env_not_ready [] rfl).1
      (Or.inr (by simp [get_etf_scores, scored_candidates, env_not_ready, etf_not_ready,
        primary_etfs, is_winter_season, aggressive_etfs, min_etfs])),
   (seasonal_safety_and_regime env_ready [] rfl).2.1 (by decide),
   (seasonal_safety_and_regime env_not_ready [] rfl).2.2 rfl⟩

/-! ## Claim C5: scoring, stable descending sort, top-N selection, weights -/

lemma filter_orderedInsert_score (q : ℚ) (x : String × ℚ) (l : List (String × ℚ)) :
    (List.orderedInsert (fun a b => b.2 ≤ a.2) x l).filter (fun p => decide (p.2 = q)) =
      if x.2 = q then x :: l.filter (fun p => decide (p.2 = q))
      else l.filter (fun p => decide (p.2 = q)) := by
  induction l with
  | nil =>
    rw [List.orderedInsert, List.filter_cons]
    split_ifs with h h' <;> simp_all
  | cons y ys ih =>
    rw [List.orderedInsert]
    by_cases hxy : y.2 ≤ x.2
    · rw [if_pos hxy, List.filter_cons, List.filter_cons]
      simp [decide_eq_true_eq]
    · rw [if_neg hxy, List.filter_cons, List.filter_cons, ih]
      have hyx : x.2 < y.2 := lt_of_not_le hxy
      by_cases hx : x.2 = q
      · have hy : ¬y.2 = q := by
          intro hy
          rw [hx, hy] at hyx
          exact lt_irrefl q hyx
        simp [hx, hy]
      · simp [hx]

lemma filter_insertionSort_score (q : ℚ) (l : List (String × ℚ)) :
    (l.insertionSort (fun a b => b.2 ≤ a.2)).filter (fun p => decide (p.2 = q)) =
      l.filter (fun p => decide (p.2 = q)) := by
  induction l with
  | nil => rfl
  | cons x xs ih =>
    rw [List.insertionSort, filter_orderedInsert_score, ih, List.filter_cons]
    split_ifs with h1 h2 h2 <;> simp_all

/-- Claim C5: for every candidate list the scored output is sorted by score
descending and stable on ties (equal-score candidates keep their
enumeration order, expressed as filter preservation); under a bullish
market with at least `min_etfs` scored candidates the selection is the
first `top_n` of the sorted list (hence at most `top_n` long), each
selected ticker receives a set-weight instruction at `1/|selection|`, and
no other ticker receives one. -/
theorem seasonal_rank_and_select (env : SeasonalEnv) (cand st : List String)
    (hw : env.warming = false)
    (hb : is_market_bullish env = true)
    (hn : min_etfs ≤ (get_etf_scores env (primary_etfs env)).length) :
    (get_etf_scores env cand).Sorted (fun a b => b.2 ≤ a.2)
    ∧ (∀ q : ℚ, (get_etf_scores env cand).filter (fun p => decide (p.2 = q)) =
        (scored_candidates env cand).filter (fun p => decide (p.2 = q)))
    ∧ seasonal_target env =
        ((get_etf_scores env (primary_etfs env)).take top_n).map Prod.fst
    ∧ (seasonal_target env).length ≤ top_n
    ∧ (∀ t w, Instr.setWeight t w ∈ (seasonal_rebalance env st).1 ↔
        (t ∈ seasonal_target env ∧ w = 1 / ((seasonal_target env).length : ℚ))) := by
  haveI instTot : IsTotal (String × ℚ) (fun a b => b.2 ≤ a.2) := ⟨fun a b => le_total b.2 a.2⟩
  haveI instTrans : IsTrans (String × ℚ) (fun a b => b.2 ≤ a.2) :=
    ⟨fun a b c hab hbc => le_trans hbc hab⟩
  have htarget : seasonal_target env =
      ((get_etf_scores env (primary_etfs env)).take top_n).map Prod.fst := by
    simp only [seasonal_target]
    rw [if_pos ⟨hb, hn⟩]
  have hlen : (seasonal_target env).length =
      min top_n (get_etf_scores env (primary_etfs env)).length := by
    rw [htarget, List.length_map, List.length_take]
  have hlen0 : 0 < (seasonal_target env).length := by
    rw [hlen]
    have h2 : min_etfs ≤ (get_etf_scores env (primary_etfs env)).length := hn
    simp only [min_etfs] at h2
    simp only [top_n]
    omega
  have hne : seasonal_target env ≠ [] := by
    intro hcontra
    rw [hcontra] at hlen0
    simp at hlen0
  have hweight : seasonal_weight (seasonal_target env) =
      1 / ((seasonal_target env).length : ℚ) := by
    rw [seasonal_weight, if_neg hne]
  refine ⟨?_, fun q => ?_, htarget, ?_, fun t w => ?_⟩
  · exact List.sorted_insertionSort _ _
  · exact filter_insertionSort_score q (scored_candidates env cand)
  · rw [hlen]
    exact min_le_left _ _
  · have hr : (seasonal_rebalance env st).1 =
        (st.filter fun u =>
          decide (u ∉ seasonal_target env) && (env.data u).invested).map Instr.liquidate
          ++ (seasonal_target env).map
              (fun u => Instr.setWeight u (seasonal_weight (seasonal_target env))) := by
      simp only [seasonal_rebalance, hw, Bool.false_eq_true, if_false]
    rw [hr, List.mem_append]
    simp only [List.mem_map]
    constructor
    · rintro (⟨u, _, hcontra⟩ | ⟨u, hu, heq⟩)
      · exact absurd hcontra (by simp)
      · rcases Instr.setWeight.inj heq with ⟨hut, hww⟩
        exact ⟨hut ▸ hu, by rw [← hww, hweight]⟩
    · rintro ⟨ht, hww⟩
      exact Or.inr ⟨t, ht, by rw [hweight, ← hww]⟩

/-- Witness for C5 at the all-ready December environment: all four
aggressive candidates score, the market is bullish, and the selection is
the top three. -/
theorem seasonal_rank_and_select_witness :
    (get_etf_scores env_ready aggressive_etfs).Sorted (fun a b => b.2 ≤ a.2)
    ∧ (∀ q : ℚ, (get_etf_scores env_ready aggressive_etfs).filter (fun p => decide (p.2 = q)) =
        (scored_candidates env_ready aggressive_etfs).filter (fun p => decide (p.2 = q)))
    ∧ seasonal_target env_ready =
        ((get_etf_scores env_ready (primary_etfs env_ready)).take top_n).map Prod.fst
    ∧ (seasonal_target env_ready).length ≤ top_n
    ∧ (∀ t w, Instr.setWeight t w ∈ (seasonal_rebalance env_ready []).1 ↔
        (t ∈ seasonal_target env_ready ∧ w = 1 / ((seasonal_target env_ready).length : ℚ))) :=
  seasonal_rank_and_select env_ready aggressive_etfs [] rfl (by decide) (by decide)

/-! ## Claim C6: realized volatility -/

lemma popVar_nonneg (l : List ℚ) : 0 ≤ popVar l := by
  apply div_nonneg
  · apply List.sum_nonneg
    intro x hx
    rcases List.mem_map.mp hx with ⟨y, _, rfl⟩
    positivity
  · positivity

/-- Counterexample to C6 as stated: with the 20 stored returns of `st_cex`
(one 1 and nineteen 0), the value from the code — `np.std` with divisor 20, i.e.
`√(19/400)·√252` — differs from the sample standard deviation (divisor 19,
`√(1/20)·√252`) claimed by the spec sentence. -/
theorem realized_vol_not_sample_std :
    get_realized_vol st_cex ≠ some (sample_std_annualized (st_cex.return_history.take 20)) := by
  have htake : st_cex.return_history.take 20 = 1 :: List.replicate 19 0 :=
    List.take_of_length_le (by simp [st_cex])
  have hpop : popVar (1 :: List.replicate 19 (0 : ℚ)) = 19 / 400 := by
    norm_num [popVar, listMean, List.map_replicate, List.sum_replicate, smul_eq_mul]
  have hsamp : sampleVar (1 :: List.replicate 19 (0 : ℚ)) = 1 / 20 := by
    norm_num [sampleVar, listMean, List.map_replicate, List.sum_replicate, smul_eq_mul]
  intro h
  rw [get_realized_vol, if_neg (by simp [st_cex]), sample_std_annualized, htake, hpop, hsamp] at h
  have h2 := Option.some.inj h
  have h252 : (0 : ℝ) < Real.sqrt 252 := Real.sqrt_pos.mpr (by norm_num)
  have h3 := mul_right_cancel₀ (ne_of_gt h252) h2
  rw [Real.sqrt_inj (by positivity) (by positivity)] at h3
  norm_num at h3

/-- Amended C6: `get_realized_vol` returns `none` while fewer than 20
returns are stored, and otherwise a nonnegative value whose square is the
population variance (the numpy default for `np.std`, divisor `n = 20`) of the 20
most recent returns times 252 — i.e. the *population*, not the
Bessel-corrected sample, standard deviation annualized by `√252`. -/
theorem realized_vol_pop_std (st : MSFTState) :
    (st.return_history.length < 20 → get_realized_vol st = none)
    ∧ (20 ≤ st.return_history.length →
        ∃ v : ℝ, get_realized_vol st = some v ∧ 0 ≤ v ∧
          v ^ 2 = ((popVar (st.return_history.take 20) : ℚ) : ℝ) * 252) := by
  constructor
  · intro h
    rw [get_realized_vol, if_pos h]
  · intro h
    rw [get_realized_vol, if_neg (not_lt.mpr h)]
    refine ⟨_, rfl, mul_nonneg (Real.sqrt_nonneg _) (Real.sqrt_nonneg _), ?_⟩
    have hc : (0 : ℝ) ≤ ((popVar (st.return_history.take 20) : ℚ) : ℝ) := by
      exact_mod_cast popVar_nonneg _
    rw [mul_pow, Real.sq_sqrt hc, Real.sq_sqrt (by norm_num : (0 : ℝ) ≤ 252)]

/-- Witness for the amended C6: the empty state is not ready; `st_cex` has
exactly 20 returns and yields the population-variance value. -/
theorem realized_vol_pop_std_witness :
    get_realized_vol st_empty = none
    ∧ ∃ v : ℝ, get_realized_vol st_cex = some v ∧ 0 ≤ v ∧
        v ^ 2 = ((popVar (st_cex.return_history.take 20) : ℚ) : ℝ) * 252 :=
  ⟨(realized_vol_pop_std st_empty).1 (by simp [st_empty]),
   (realized_vol_pop_std st_cex).2 (by simp [st_cex])⟩
